import Mathlib

/-
Verification development for the case-ai-analytics repository.

The development shallowly embeds the data-preparation core of the
repository: the time-based train/test splitter (src/data/time_split.py),
the preprocessing and target construction (src/data/data_processor.py),
the synthetic data generator (data_generator.py), and the insights
aggregator (src/api/case_insights.py, src/agent/case_insights.py).

Conventions of the embedding:
- pandas DataFrames are modelled column-oriented as association lists
  from column name to a list of cells;
- dates are modelled as integers (days since the Unix epoch), and the
  splitter works over rational-valued timestamps because the pandas
  quantile of a datetime column interpolates between timestamps;
- the NumPy global random state is modelled as a deterministic word
  stream plus a cursor; `np.random.seed` replaces the stream;
- fallible pandas/NumPy operations (raising ValueError / KeyError /
  IndexError) are modelled with `Except String`.
-/

set_option maxRecDepth 2000

namespace CaseAnalytics

/-! ## Structurally recursive sorting helpers

The library sort is implemented by well-founded recursion, which the
kernel cannot reduce on concrete inputs, so the embedding uses a
structural insertion sort and a structural code-point order on strings
(the order pandas uses for ASCII category levels). -/

/-- Insert into a sorted list. -/
def insertBy (le : α → α → Bool) (a : α) : List α → List α
  | [] => [a]
  | b :: bs => if le a b then a :: b :: bs else b :: insertBy le a bs

/-- Insertion sort by the given order. -/
def sortBy (le : α → α → Bool) : List α → List α
  | [] => []
  | a :: as => insertBy le a (sortBy le as)

/-- Lexicographic code-point order on character lists. -/
def charListLe : List Char → List Char → Bool
  | [], _ => true
  | _ :: _, [] => false
  | a :: as, b :: bs =>
    if a.toNat < b.toNat then true
    else if b.toNat < a.toNat then false
    else charListLe as bs

/-- Lexicographic code-point order on strings. -/
def strLe (a b : String) : Bool := charListLe a.data b.data

/-- Structural test that the second character list starts with the
first. -/
def charListStartsWith : List Char → List Char → Bool
  | [], _ => true
  | _ :: _, [] => false
  | a :: as, b :: bs => a == b && charListStartsWith as bs

/-- Structural model of `str.startswith(pre)`. -/
def strStartsWith (s pre : String) : Bool :=
  charListStartsWith pre.data s.data

/-! ## Time-based splitter (src/data/time_split.py) -/

/-- Configuration of `TimeBasedSplitter.__init__`: the requested train
proportion and the sanity floors for the two partitions. -/
structure TimeBasedSplitter where
  train_ratio : ℚ
  min_train_size : ℚ
  min_test_size : ℚ

/-- Model of `pandas.Series.quantile` with the default linear
interpolation: for a series of length `n` and quantile `q`, the virtual
index is `h = q * (n - 1)`; the result interpolates between the sorted
values at positions `floor h` and `ceil h`. -/
def quantile (xs : List ℚ) (q : ℚ) : ℚ :=
  let s := sortBy (fun a b => a ≤ b) xs
  let h : ℚ := q * ((s.length : ℚ) - 1)
  let lo := h.floor.toNat
  let hi := h.ceil.toNat
  let a := s.getD lo 0
  let b := s.getD hi 0
  a + (h - (lo : ℚ)) * (b - a)

/-- Model of `TimeBasedSplitter.split` (time_split.py lines 54-99), after
date validation: the split date is the `train_ratio`-quantile of the date
column; the training partition keeps the rows whose date is strictly
before the split date (`df[df[date_column] < self.split_date]`) and the
testing partition keeps the rows whose date is at or after it
(`df[df[date_column] >= self.split_date]`). The date column is abstracted
as a function `dateOf` from a row to its parsed timestamp. -/
def TimeBasedSplitter.split (sp : TimeBasedSplitter) (dateOf : α → ℚ)
    (df : List α) : List α × List α :=
  let sd := quantile (df.map dateOf) sp.train_ratio
  (df.filter (fun r => dateOf r < sd), df.filter (fun r => sd ≤ dateOf r))

/-- Warnings issued by `TimeBasedSplitter.validate_split`, carrying the
actual fraction and the configured minimum that it violated. -/
inductive SplitWarning where
  | trainTooSmall (actual min : ℚ)
  | testTooSmall (actual min : ℚ)
deriving DecidableEq, Repr

/-- Model of `TimeBasedSplitter.validate_split` (time_split.py lines
101-125): compute the actual train/test fractions, collect a warning for
each fraction below its configured minimum, and return `False` when any
warning was emitted, `True` otherwise. The function only prints; it never
raises. -/
def TimeBasedSplitter.validate_split (sp : TimeBasedSplitter)
    (trainN testN : Nat) : List SplitWarning × Bool :=
  let total : ℚ := (trainN : ℚ) + (testN : ℚ)
  let trainFrac : ℚ := (trainN : ℚ) / total
  let testFrac : ℚ := (testN : ℚ) / total
  let ws :=
    (if trainFrac < sp.min_train_size then
      [SplitWarning.trainTooSmall trainFrac sp.min_train_size] else []) ++
    (if testFrac < sp.min_test_size then
      [SplitWarning.testTooSmall testFrac sp.min_test_size] else [])
  (ws, ws.isEmpty)

/-- Model of `TimeBasedSplitter.split` with its `validate=True` path: the
partitions are computed, then `validate_split` is run on them, and the
partitions are returned to the caller together with whatever warnings the
validation emitted. -/
def TimeBasedSplitter.split_with_validation (sp : TimeBasedSplitter)
    (dateOf : α → ℚ) (df : List α) (validate : Bool) :
    (List α × List α) × List SplitWarning :=
  let p := sp.split dateOf df
  if validate then (p, (sp.validate_split p.1.length p.2.length).1)
  else (p, [])

/-! ## Theorems for the splitter claims -/

/-- C1: for every input table whose date column has been parsed and every
train_ratio in (0,1), `TimeBasedSplitter.split` uses the
`train_ratio`-quantile of the date column as the split date, puts exactly
the rows whose date is strictly before the split date in the training
partition and all remaining rows in the test partition, and the two
partitions are row-disjoint and together are a permutation of the input
(no row dropped, no row duplicated). -/
theorem split_partitions {α : Type} (sp : TimeBasedSplitter) (dateOf : α → ℚ)
    (df : List α) (h0 : 0 < sp.train_ratio) (h1 : sp.train_ratio < 1) :
    (sp.split dateOf df).1 =
      df.filter (fun r => decide (dateOf r < quantile (df.map dateOf) sp.train_ratio)) ∧
    (sp.split dateOf df).2 =
      df.filter (fun r => decide (quantile (df.map dateOf) sp.train_ratio ≤ dateOf r)) ∧
    (∀ r ∈ (sp.split dateOf df).1, dateOf r < quantile (df.map dateOf) sp.train_ratio) ∧
    (∀ r ∈ (sp.split dateOf df).2, quantile (df.map dateOf) sp.train_ratio ≤ dateOf r) ∧
    ((sp.split dateOf df).1 ++ (sp.split dateOf df).2).Perm df ∧
    (∀ r ∈ (sp.split dateOf df).1, r ∉ (sp.split dateOf df).2) := by
  refine ⟨rfl, rfl, ?_, ?_, ?_, ?_⟩
  · intro r hr
    simp only [TimeBasedSplitter.split] at hr
    exact of_decide_eq_true (List.mem_filter.mp hr).2
  · intro r hr
    simp only [TimeBasedSplitter.split] at hr
    exact of_decide_eq_true (List.mem_filter.mp hr).2
  · simp only [TimeBasedSplitter.split]
    have hq : df.filter
        (fun r => decide (quantile (df.map dateOf) sp.train_ratio ≤ dateOf r)) =
        df.filter
        (fun r => !(decide (dateOf r < quantile (df.map dateOf) sp.train_ratio))) := by
      apply List.filter_congr
      intro x _
      by_cases h : dateOf x < quantile (df.map dateOf) sp.train_ratio
      · simp [h, not_le.mpr h]
      · simp [h, not_lt.mp h]
    rw [hq]
    exact List.filter_append_perm _ df
  · intro r hr hr2
    simp only [TimeBasedSplitter.split] at hr hr2
    have hlt := of_decide_eq_true (List.mem_filter.mp hr).2
    have hle := of_decide_eq_true (List.mem_filter.mp hr2).2
    exact absurd hlt (not_lt.mpr hle)

/-- Witness for C1 at a concrete input: splitter with train_ratio 4/5 on
the five-row table with dates 1..5. -/
theorem split_partitions_witness :
    ((0 : ℚ) < (4/5 : ℚ) ∧ (4/5 : ℚ) < 1) ∧
    (((⟨4/5, 1/10, 1/10⟩ : TimeBasedSplitter).split (fun d : ℚ => d)
        [1, 2, 3, 4, 5]).1 ++
     ((⟨4/5, 1/10, 1/10⟩ : TimeBasedSplitter).split (fun d : ℚ => d)
        [1, 2, 3, 4, 5]).2).Perm [1, 2, 3, 4, 5] :=
  ⟨⟨by norm_num, by norm_num⟩,
   (split_partitions ⟨4/5, 1/10, 1/10⟩ (fun d : ℚ => d) [1, 2, 3, 4, 5]
      (by norm_num) (by norm_num)).2.2.2.2.1⟩

/-- C8: for every performed split (nonempty input), the partitions handed
back to the caller are exactly the ones `split` computed — validation
neither aborts nor changes them — and `validate_split` emits the warning
naming the train (resp. test) bound exactly when the actual train (resp.
test) fraction falls below its configured minimum; when neither bound is
violated, no warning is emitted. -/
theorem validate_split_warns {α : Type} (sp : TimeBasedSplitter)
    (dateOf : α → ℚ) (df : List α) (hne : df ≠ []) :
    (sp.split_with_validation dateOf df true).1 = sp.split dateOf df ∧
    (((((sp.split dateOf df).1.length : ℚ) /
        (((sp.split dateOf df).1.length : ℚ) + ((sp.split dateOf df).2.length : ℚ)))
        < sp.min_train_size) ↔
      SplitWarning.trainTooSmall
        (((sp.split dateOf df).1.length : ℚ) /
          (((sp.split dateOf df).1.length : ℚ) + ((sp.split dateOf df).2.length : ℚ)))
        sp.min_train_size ∈ (sp.split_with_validation dateOf df true).2) ∧
    (((((sp.split dateOf df).2.length : ℚ) /
        (((sp.split dateOf df).1.length : ℚ) + ((sp.split dateOf df).2.length : ℚ)))
        < sp.min_test_size) ↔
      SplitWarning.testTooSmall
        (((sp.split dateOf df).2.length : ℚ) /
          (((sp.split dateOf df).1.length : ℚ) + ((sp.split dateOf df).2.length : ℚ)))
        sp.min_test_size ∈ (sp.split_with_validation dateOf df true).2) := by
  refine ⟨rfl, ?_, ?_⟩
  · simp only [TimeBasedSplitter.split_with_validation,
      TimeBasedSplitter.validate_split, if_true]
    by_cases hA : (((sp.split dateOf df).1.length : ℚ) /
        (((sp.split dateOf df).1.length : ℚ) + ((sp.split dateOf df).2.length : ℚ)))
        < sp.min_train_size <;>
      by_cases hB : (((sp.split dateOf df).2.length : ℚ) /
        (((sp.split dateOf df).1.length : ℚ) + ((sp.split dateOf df).2.length : ℚ)))
        < sp.min_test_size <;>
      simp [hA, hB]
  · simp only [TimeBasedSplitter.split_with_validation,
      TimeBasedSplitter.validate_split, if_true]
    by_cases hA : (((sp.split dateOf df).1.length : ℚ) /
        (((sp.split dateOf df).1.length : ℚ) + ((sp.split dateOf df).2.length : ℚ)))
        < sp.min_train_size <;>
      by_cases hB : (((sp.split dateOf df).2.length : ℚ) /
        (((sp.split dateOf df).1.length : ℚ) + ((sp.split dateOf df).2.length : ℚ)))
        < sp.min_test_size <;>
      simp [hA, hB]

/-- Witness for C8 at a concrete nonempty input. -/
theorem validate_split_warns_witness :
    ([(1 : ℚ), 2, 3] ≠ []) ∧
    ((⟨4/5, 1/10, 1/10⟩ : TimeBasedSplitter).split_with_validation
        (fun d : ℚ => d) [1, 2, 3] true).1 =
      (⟨4/5, 1/10, 1/10⟩ : TimeBasedSplitter).split (fun d : ℚ => d) [1, 2, 3] :=
  ⟨by simp,
   (validate_split_warns ⟨4/5, 1/10, 1/10⟩ (fun d : ℚ => d) [1, 2, 3]
      (by simp)).1⟩

/-! ## Synthetic data generator (data_generator.py)

The NumPy global random state is modelled as a word stream together with
a cursor; every primitive draw consumes one word. `np.random.seed(42)`
and `Faker.seed(42)` at the top of `generate_synthetic_data` are modelled
by replacing the whole state with the stream derived from seed 42 (the
two seeded libraries are folded into the one modelled stream). The exact
values of the stream are irrelevant to every claim proved below: the
invariant theorems hold for an arbitrary stream, and the determinism
theorem only uses the fact that the state is replaced on entry. -/

/-- Model of the global pseudo-random state: a deterministic word stream
plus a cursor recording how many draws have happened. -/
structure RandState where
  stream : Nat → Nat
  cursor : Nat

/-- Consume one word from the stream. -/
def RandState.draw (g : RandState) : Nat × RandState :=
  (g.stream g.cursor, { g with cursor := g.cursor + 1 })

/-- Model of the seeded Mersenne-Twister word stream: a concrete mixing
function of the seed and the position. Only determinism matters; the
claims never depend on particular values. -/
def mt_stream_model (seed : Nat) : Nat → Nat :=
  fun k => (seed * 1103515245 + k * 2654435761 + 12345) % 4294967296

/-- Model of `np.random.seed(s)` (together with `Faker.seed(s)`): the
global state is replaced by the stream of seed `s` at cursor 0. -/
def np_random_seed (s : Nat) : RandState :=
  { stream := mt_stream_model s, cursor := 0 }

/-- Model of `np.random.randint(low, high)`: uniform on `[low, high)`;
NumPy raises `ValueError: low >= high` when the range is empty. -/
def randint (low high : Int) (g : RandState) :
    Except String (Int × RandState) :=
  if low < high then
    let (n, g1) := g.draw
    .ok (low + (n : Int) % (high - low), g1)
  else .error "low >= high"

/-- Unreduced fraction, used for the uniform samples and the sampling
weights of the generator. Comparisons are by cross-multiplication, so
concrete runs reduce fully inside the kernel (the normalised `Rat`
operations do not). All fractions built below have positive
denominators. -/
structure Frac where
  num : Int
  den : Int
deriving DecidableEq, Repr

/-- Cross-multiplication order on fractions with positive
denominators. -/
def Frac.lt (a b : Frac) : Bool := a.num * b.den < b.num * a.den

/-- Difference of fractions, without normalisation. -/
def Frac.sub (a b : Frac) : Frac :=
  { num := a.num * b.den - b.num * a.den, den := a.den * b.den }

/-- Model of `np.random.random()`: a fraction in `[0, 1)` with the draw
as numerator over `2^32`. -/
def random_sample (g : RandState) : Frac × RandState :=
  let (n, g1) := g.draw
  ({ num := ((n % 4294967296 : Nat) : Int), den := 4294967296 }, g1)

/-- Inverse-CDF pick used by `np.random.choice(options, p=weights)`. -/
def pick_weighted : List (α × Frac) → Frac → α → α
  | [], _, d => d
  | (x, w) :: rest, u, d =>
    if u.lt w then x else pick_weighted rest (u.sub w) d

/-- Model of `np.random.choice(options, p=weights)`: draw a uniform
sample and select by inverse CDF over the cumulative weights. -/
def weighted_choice (opts : List (α × Frac)) (d : α) (g : RandState) :
    α × RandState :=
  let (u, g1) := random_sample g
  (pick_weighted opts u d, g1)

/-- Model of the unweighted `np.random.choice(options)`: uniform index. -/
def uniform_choice (opts : List α) (d : α) (g : RandState) : α × RandState :=
  let (n, g1) := g.draw
  (opts.getD (n % opts.length) d, g1)

/-- Day number used as the model of the `today` reference date of
`faker.date_between`. -/
def today : Int := 20000

/-- Model of `faker.date_between(start, end)` (both bounds inclusive):
one draw mapped into the day range. All call sites in the generator have
`start ≤ end`. -/
def date_between (start stop : Int) (g : RandState) : Int × RandState :=
  let (n, g1) := g.draw
  (start + (n : Int) % (stop - start + 1), g1)

/-- Model of `faker.name()`: seeded free text, one draw. -/
def fake_name (g : RandState) : String × RandState :=
  let (n, g1) := g.draw
  ("Name_" ++ toString n, g1)

/-- Model of `faker.city()`: seeded free text, one draw. -/
def fake_city (g : RandState) : String × RandState :=
  let (n, g1) := g.draw
  ("City_" ++ toString n, g1)

/-- Model of `faker.paragraph()`: seeded free text, one draw. -/
def fake_paragraph (g : RandState) : String × RandState :=
  let (n, g1) := g.draw
  ("Para_" ++ toString n, g1)

/-- Model of `faker.sentence()`: seeded free text, one draw. -/
def fake_sentence (g : RandState) : String × RandState :=
  let (n, g1) := g.draw
  ("Sentence_" ++ toString n, g1)

/-- One row of the generated clients table. -/
structure ClientRow where
  client_id : Nat
  name : String
  age : Int
  income_level : String
  location : String
  join_date : Int
deriving DecidableEq, Repr

/-- One row of the generated cases table. -/
structure CaseRow where
  case_id : Nat
  client_id : Int
  case_type : String
  open_date : Int
  close_date : Option Int
  resolution_days : Option Int
  status : String
  complexity : String
  assignee : String
  escalated : Bool
deriving DecidableEq, Repr

/-- One row of the generated case-notes table. -/
structure NoteRow where
  note_id : Nat
  case_id : Int
  note_date : Int
  note_type : String
  note_text : String
  created_by : String
deriving DecidableEq, Repr

/-- Generation of one client row (data_generator.py lines 23-31), with
the draws in source order: name, age, income level, city, join date. -/
def genClient (i : Nat) (g0 : RandState) :
    Except String (ClientRow × RandState) :=
  let nm := (fake_name g0).1
  let g1 := (fake_name g0).2
  match randint 18 80 g1 with
  | .error e => .error e
  | .ok ag =>
    let inc := (weighted_choice
      [("Low", ⟨3, 10⟩), ("Medium", ⟨5, 10⟩), ("High", ⟨2, 10⟩)] "High" ag.2).1
    let g3 := (weighted_choice
      [("Low", ⟨3, 10⟩), ("Medium", ⟨5, 10⟩), ("High", ⟨2, 10⟩)] "High" ag.2).2
    let loc := (fake_city g3).1
    let g4 := (fake_city g3).2
    let jd := (date_between (today - 1825) today g4).1
    let g5 := (date_between (today - 1825) today g4).2
    .ok ({ client_id := i, name := nm, age := ag.1, income_level := inc,
           location := loc, join_date := jd }, g5)

/-- Generation of the client rows `start, start+1, ...` (`count` many). -/
def genClients : Nat → Nat → RandState →
    Except String (List ClientRow × RandState)
  | _, 0, g => .ok ([], g)
  | start, k + 1, g =>
    Except.bind (genClient start g) (fun cg =>
      Except.bind (genClients (start + 1) k cg.2) (fun rest =>
        .ok (cg.1 :: rest.1, rest.2)))

/-- The fixed case-type vocabulary with its sampling weights
(data_generator.py lines 35-36 and 57). -/
def case_type_weights : List (String × Frac) :=
  [("Family Law", ⟨25, 100⟩), ("Criminal Defense", ⟨30, 100⟩),
   ("Civil Litigation", ⟨20, 100⟩), ("Corporate", ⟨10, 100⟩),
   ("Intellectual Property", ⟨10, 100⟩), ("Estate Planning", ⟨5, 100⟩)]

/-- Tail of the generation of one case row, after the resolution branch
has fixed `open_date`, `close_date`, `resolution_days` and `status`
(data_generator.py lines 57-79): case type, escalation, assignee,
client id, complexity, in source draw order. -/
def genCaseTail (i num_clients : Nat) (od : Int) (close : Option Int)
    (rd : Option Int) (st : String) (g0 : RandState) :
    Except String (CaseRow × RandState) :=
  let ct := (weighted_choice case_type_weights "Estate Planning" g0).1
  let g1 := (weighted_choice case_type_weights "Estate Planning" g0).2
  let u2 := (random_sample g1).1
  let g2 := (random_sample g1).2
  let esc : Bool :=
    if ct = "Criminal Defense" ∨ ct = "Civil Litigation" then
      u2.lt ⟨3, 10⟩
    else u2.lt ⟨1, 10⟩
  match randint 1 20 g2 with
  | .error e => .error e
  | .ok ag =>
    match randint 0 (num_clients : Int) ag.2 with
    | .error e => .error e
    | .ok cg =>
      let cx := (weighted_choice
        [("Low", ⟨3, 10⟩), ("Medium", ⟨5, 10⟩), ("High", ⟨2, 10⟩)] "High" cg.2).1
      let g5 := (weighted_choice
        [("Low", ⟨3, 10⟩), ("Medium", ⟨5, 10⟩), ("High", ⟨2, 10⟩)] "High" cg.2).2
      .ok ({ case_id := i, client_id := cg.1, case_type := ct, open_date := od,
             close_date := close, resolution_days := rd, status := st,
             complexity := cx, assignee := "Attorney_" ++ toString ag.1,
             escalated := esc }, g5)

/-- Generation of one case row (data_generator.py lines 40-79): an open
date in the last two years, a Bernoulli(0.7) resolution decision, and
then resolution days / close date / status conditional on that outcome. -/
def genCase (i num_clients : Nat) (g0 : RandState) :
    Except String (CaseRow × RandState) :=
  let od := (date_between (today - 730) today g0).1
  let g1 := (date_between (today - 730) today g0).2
  let u := (random_sample g1).1
  let g2 := (random_sample g1).2
  if u.lt ⟨7, 10⟩ then
    match randint 1 365 g2 with
    | .error e => .error e
    | .ok rg =>
      let st := (weighted_choice
        [("Resolved", ⟨9, 10⟩), ("Appealed", ⟨1, 10⟩)] "Appealed" rg.2).1
      let g4 := (weighted_choice
        [("Resolved", ⟨9, 10⟩), ("Appealed", ⟨1, 10⟩)] "Appealed" rg.2).2
      genCaseTail i num_clients od (some (od + rg.1)) (some rg.1) st g4
  else
    let st := (weighted_choice
      [("Pending", ⟨9, 10⟩), ("Abandoned", ⟨1, 10⟩)] "Abandoned" g2).1
    let g3 := (weighted_choice
      [("Pending", ⟨9, 10⟩), ("Abandoned", ⟨1, 10⟩)] "Abandoned" g2).2
    genCaseTail i num_clients od none none st g3

/-- Generation of the case rows `start, start+1, ...` (`count` many). -/
def genCases : Nat → Nat → Nat → RandState →
    Except String (List CaseRow × RandState)
  | _, 0, _, g => .ok ([], g)
  | start, k + 1, num_clients, g =>
    Except.bind (genCase start num_clients g) (fun cg =>
      Except.bind (genCases (start + 1) k num_clients cg.2) (fun rest =>
        .ok (cg.1 :: rest.1, rest.2)))

/-- The fixed note-type vocabulary (data_generator.py lines 83-84). -/
def note_types : List String :=
  ["Client Meeting", "Document Review", "Court Appearance",
   "Research", "Client Communication", "Internal Discussion"]

/-- Generation of one case-note row (data_generator.py lines 87-116):
pick a case uniformly, look its row up (`.loc[...].iloc[0]`, an
IndexError when absent), sample a note date inside the case lifespan, a
note type, templated note text, and the author. -/
def genNote (i num_cases : Nat) (cases : List CaseRow) (g0 : RandState) :
    Except String (NoteRow × RandState) :=
  match randint 0 (num_cases : Int) g0 with
  | .error e => .error e
  | .ok idg =>
    match cases.find? (fun c => (c.case_id : Int) = idg.1) with
    | none => .error "single positional indexer is out-of-bounds"
    | some cd =>
      let ndg :=
        match cd.close_date with
        | some close => date_between cd.open_date close idg.2
        | none => date_between cd.open_date today idg.2
      let nt := (uniform_choice note_types "Internal Discussion" ndg.2).1
      let g3 := (uniform_choice note_types "Internal Discussion" ndg.2).2
      let tg :=
        if nt = "Client Meeting" then
          ("Met with client to discuss " ++ cd.case_type ++ " case. " ++
            (fake_paragraph g3).1, (fake_paragraph g3).2)
        else if nt = "Court Appearance" then
          ("Appeared in court for " ++ (fake_sentence g3).1 ++ ". " ++
            (fake_paragraph (fake_sentence g3).2).1,
           (fake_paragraph (fake_sentence g3).2).2)
        else fake_paragraph g3
      let u := (random_sample tg.2).1
      let g5 := (random_sample tg.2).2
      if u.lt ⟨8, 10⟩ then
        .ok ({ note_id := i, case_id := idg.1, note_date := ndg.1,
               note_type := nt, note_text := tg.1,
               created_by := cd.assignee }, g5)
      else
        match randint 1 10 g5 with
        | .error e => .error e
        | .ok sg =>
          .ok ({ note_id := i, case_id := idg.1, note_date := ndg.1,
                 note_type := nt, note_text := tg.1,
                 created_by := "Staff_" ++ toString sg.1 }, sg.2)

/-- Generation of the note rows `start, start+1, ...` (`count` many). -/
def genNotes : Nat → Nat → Nat → List CaseRow → RandState →
    Except String (List NoteRow × RandState)
  | _, 0, _, _, g => .ok ([], g)
  | start, k + 1, num_cases, cases, g =>
    Except.bind (genNote start num_cases cases g) (fun ng =>
      Except.bind (genNotes (start + 1) k num_cases cases ng.2) (fun rest =>
        .ok (ng.1 :: rest.1, rest.2)))

/-- The three generated tables. -/
structure Tables where
  clients : List ClientRow
  cases : List CaseRow
  notes : List NoteRow
deriving DecidableEq, Repr

/-- Model of `generate_synthetic_data(num_clients, num_cases, num_notes)`
(data_generator.py lines 6-121). The incoming global random state `g0` is
the state left behind by whatever ran before; the function discards it by
reseeding with the fixed seed 42 and then generates the three tables. -/
def generate_synthetic_data (num_clients num_cases num_notes : Nat)
    (g0 : RandState) : Except String (Tables × RandState) :=
  let _ := g0
  Except.bind (genClients 0 num_clients (np_random_seed 42)) (fun clg =>
    Except.bind (genCases 0 num_cases num_clients clg.2) (fun csg =>
      Except.bind (genNotes 0 num_notes num_cases csg.1 csg.2) (fun nsg =>
        .ok ({ clients := clg.1, cases := csg.1, notes := nsg.1 }, nsg.2))))

/-! ## Helper lemmas about the generator -/

/-- The tail of the case generation copies `open_date`, `close_date` and
`resolution_days` unchanged into the produced row. -/
theorem genCaseTail_fields (i nc : Nat) (od : Int) (close : Option Int)
    (rd : Option Int) (st : String) (g g' : RandState) (r : CaseRow)
    (h : genCaseTail i nc od close rd st g = .ok (r, g')) :
    r.open_date = od ∧ r.close_date = close ∧ r.resolution_days = rd := by
  simp only [genCaseTail] at h
  split at h
  · cases h
  · split at h
    · cases h
    · cases h
      exact ⟨rfl, rfl, rfl⟩

/-- Every case row produced by `genCase` either has no close date and no
resolution days, or has resolution days `d` with `1 ≤ d ≤ 364` and close
date exactly `open_date + d`. -/
theorem genCase_resolution (i nc : Nat) (g g' : RandState) (r : CaseRow)
    (h : genCase i nc g = .ok (r, g')) :
    (r.close_date = none ∧ r.resolution_days = none) ∨
    (∃ d, 1 ≤ d ∧ d ≤ 364 ∧ r.resolution_days = some d ∧
      r.close_date = some (r.open_date + d)) := by
  simp only [genCase] at h
  split at h
  · split at h
    · cases h
    · rename_i rg heq
      simp only [randint, eq_true (show (1 : Int) < 365 by decide), ite_true,
        Except.ok.injEq] at heq
      subst heq
      dsimp only at h
      obtain ⟨hod, hcl, hrd⟩ := genCaseTail_fields _ _ _ _ _ _ _ _ _ h
      refine Or.inr ⟨_, ?_, ?_, hrd, ?_⟩
      · omega
      · omega
      · rw [hcl, hod]
  · obtain ⟨-, hcl, hrd⟩ := genCaseTail_fields _ _ _ _ _ _ _ _ _ h
    exact Or.inl ⟨hcl, hrd⟩

/-- Computation rule of `Except.bind` on a success value. -/
theorem except_bind_ok {α β ε : Type} (a : α) (f : α → Except ε β) :
    Except.bind (.ok a) f = f a := rfl

/-- Computation rule of `Except.bind` on an error value. -/
theorem except_bind_error {α β ε : Type} (e : ε) (f : α → Except ε β) :
    Except.bind (.error e) f = .error e := rfl

/-- Unfolding equation for `genCases` at a successor count. -/
theorem genCases_succ (start k num_clients : Nat) (g : RandState) :
    genCases start (k + 1) num_clients g =
    Except.bind (genCase start num_clients g) (fun cg =>
      Except.bind (genCases (start + 1) k num_clients cg.2) (fun rest =>
        .ok (cg.1 :: rest.1, rest.2))) := rfl

/-- Lift of `genCase_resolution` to the generated list of case rows. -/
theorem genCases_resolution (count : Nat) : ∀ (start nc : Nat)
    (g g' : RandState) (cs : List CaseRow),
    genCases start count nc g = .ok (cs, g') → ∀ r ∈ cs,
    (r.close_date = none ∧ r.resolution_days = none) ∨
    (∃ d, 1 ≤ d ∧ d ≤ 364 ∧ r.resolution_days = some d ∧
      r.close_date = some (r.open_date + d)) := by
  induction count with
  | zero =>
    intro start nc g g' cs h r hr
    rw [show genCases start 0 nc g = .ok ([], g) from rfl] at h
    cases h
    cases hr
  | succ k ih =>
    intro start nc g g' cs h r hr
    rw [genCases_succ] at h
    cases hc : genCase start nc g with
    | error e => rw [hc, except_bind_error] at h; cases h
    | ok p =>
      rw [hc, except_bind_ok] at h
      cases hrest : genCases (start + 1) k nc p.2 with
      | error e => rw [hrest, except_bind_error] at h; cases h
      | ok q =>
        rw [hrest, except_bind_ok] at h
        cases h
        rcases List.mem_cons.mp hr with h1 | h2
        · subst h1
          exact genCase_resolution start nc g p.2 p.1 (by rw [hc])
        · exact ih (start + 1) nc p.2 q.2 q.1 (by rw [hrest]) r h2

/-- The cases table of a successful run of the generator satisfies the
per-row resolution disjunction. -/
theorem generate_cases_resolution (num_clients num_cases num_notes : Nat)
    (g0 gf : RandState) (t : Tables)
    (h : generate_synthetic_data num_clients num_cases num_notes g0 =
      .ok (t, gf)) : ∀ r ∈ t.cases,
    (r.close_date = none ∧ r.resolution_days = none) ∨
    (∃ d, 1 ≤ d ∧ d ≤ 364 ∧ r.resolution_days = some d ∧
      r.close_date = some (r.open_date + d)) := by
  intro r hr
  rw [show generate_synthetic_data num_clients num_cases num_notes g0 =
    Except.bind (genClients 0 num_clients (np_random_seed 42)) (fun clg =>
      Except.bind (genCases 0 num_cases num_clients clg.2) (fun csg =>
        Except.bind (genNotes 0 num_notes num_cases csg.1 csg.2) (fun nsg =>
          .ok ({ clients := clg.1, cases := csg.1, notes := nsg.1 },
            nsg.2)))) from rfl] at h
  cases hcl : genClients 0 num_clients (np_random_seed 42) with
  | error e => rw [hcl, except_bind_error] at h; cases h
  | ok p =>
    rw [hcl, except_bind_ok] at h
    cases hcs : genCases 0 num_cases num_clients p.2 with
    | error e => rw [hcs, except_bind_error] at h; cases h
    | ok q =>
      rw [hcs, except_bind_ok] at h
      cases hns : genNotes 0 num_notes num_cases q.1 q.2 with
      | error e => rw [hns, except_bind_error] at h; cases h
      | ok w =>
        rw [hns, except_bind_ok] at h
        cases h
        exact genCases_resolution num_cases 0 num_clients p.2 q.2 q.1
          (by rw [hcs]) r hr

/-! ## Theorems for the generator claims -/

/-- C5: two runs of the generator within this implementation, given
identical counts (the seed is the fixed constant 42 baked into the
function), produce identical outputs: the result does not depend on the
incoming global random state, because the function starts by reseeding
it. -/
theorem generate_synthetic_data_deterministic
    (num_clients num_cases num_notes : Nat) (g1 g2 : RandState) :
    generate_synthetic_data num_clients num_cases num_notes g1 =
    generate_synthetic_data num_clients num_cases num_notes g2 := rfl

/-- C6: for every case row of a successful run of the generator, when
`close_date` is present it is at least `open_date` and `resolution_days`
equals the day difference `close_date - open_date`; `resolution_days` is
non-negative whenever present and is null exactly when `close_date` is
null. -/
theorem generated_case_dates_consistent
    (num_clients num_cases num_notes : Nat) (g0 gf : RandState) (t : Tables)
    (h : generate_synthetic_data num_clients num_cases num_notes g0 =
      .ok (t, gf)) (r : CaseRow) (hr : r ∈ t.cases) :
    (∀ cd, r.close_date = some cd →
      r.open_date ≤ cd ∧ r.resolution_days = some (cd - r.open_date)) ∧
    (∀ d, r.resolution_days = some d → 0 ≤ d) ∧
    (r.resolution_days = none ↔ r.close_date = none) := by
  rcases generate_cases_resolution num_clients num_cases num_notes g0 gf t h
    r hr with ⟨hcl, hrd⟩ | ⟨d, hd1, hd2, hrd, hcl⟩
  · refine ⟨?_, ?_, ?_⟩
    · intro cd hcd
      rw [hcl] at hcd
      cases hcd
    · intro d hd
      rw [hrd] at hd
      cases hd
    · rw [hcl, hrd]
  · refine ⟨?_, ?_, ?_⟩
    · intro cd hcd
      rw [hcl] at hcd
      have hcd' : cd = r.open_date + d := by
        exact (Option.some.injEq _ _).mp hcd.symm
      constructor
      · rw [hcd']
        omega
      · rw [hrd, hcd']
        congr 1
        omega
    · intro e he
      rw [hrd] at he
      have : e = d := by exact (Option.some.injEq _ _).mp he.symm
      omega
    · rw [hcl, hrd]
      constructor
      · intro hx
        cases hx
      · intro hx
        cases hx

/-- C9: for every case row of a successful run of the generator that has
a close date, `resolution_days` is present and lies in the range 1..364
inclusive — strictly positive and strictly below one year. -/
theorem generated_resolution_days_bounds
    (num_clients num_cases num_notes : Nat) (g0 gf : RandState) (t : Tables)
    (h : generate_synthetic_data num_clients num_cases num_notes g0 =
      .ok (t, gf)) (r : CaseRow) (hr : r ∈ t.cases)
    (cd : Int) (hcd : r.close_date = some cd) :
    ∃ d, r.resolution_days = some d ∧ 1 ≤ d ∧ d ≤ 364 := by
  rcases generate_cases_resolution num_clients num_cases num_notes g0 gf t h
    r hr with ⟨hcl, -⟩ | ⟨d, hd1, hd2, hrd, -⟩
  · rw [hcl] at hcd
    cases hcd
  · exact ⟨d, hrd, hd1, hd2⟩

/-- The tables of the run of the generator on 1 client, 1 case and 0
notes starting from the state of seed 0, used as a concrete witness. -/
def witness_tables : Tables :=
  match generate_synthetic_data 1 1 0 (np_random_seed 0) with
  | .ok (t, _) => t
  | .error _ => { clients := [], cases := [], notes := [] }

/-- The final random state of the same witness run. -/
def witness_state : RandState :=
  match generate_synthetic_data 1 1 0 (np_random_seed 0) with
  | .ok (_, g) => g
  | .error _ => np_random_seed 0

/-- The first case row of the witness run. -/
def witness_case : CaseRow :=
  witness_tables.cases.headD
    { case_id := 0, client_id := 0, case_type := "", open_date := 0,
      close_date := none, resolution_days := none, status := "",
      complexity := "", assignee := "", escalated := false }

/-- Witness for C6: the invariant evaluated on the first case row of a
concrete run (whose close date is day 19718). -/
theorem generated_case_dates_consistent_witness :
    witness_case.open_date ≤ 19718 ∧
    witness_case.resolution_days = some (19718 - witness_case.open_date) :=
  (generated_case_dates_consistent 1 1 0 (np_random_seed 0) witness_state
    witness_tables rfl witness_case (by decide)).1 19718 (by decide)

/-- Witness for C9: the bounds evaluated on the first case row of the
same concrete run. -/
theorem generated_resolution_days_bounds_witness :
    ∃ d, witness_case.resolution_days = some d ∧ 1 ≤ d ∧ d ≤ 364 :=
  generated_resolution_days_bounds 1 1 0 (np_random_seed 0) witness_state
    witness_tables rfl witness_case (by decide) 19718 (by decide)

/-- Check that a generator run succeeded and produced an empty notes
table. -/
def run_ok_with_empty_notes (r : Except String (Tables × RandState)) : Bool :=
  match r with
  | .ok (t, _) => t.notes.isEmpty
  | .error _ => false

/-- Check that a generator run failed with the NumPy randint range
error. -/
def run_fails_low_high (r : Except String (Tables × RandState)) : Bool :=
  match r with
  | .ok _ => false
  | .error e => e = "low >= high"

/-- C4 counterexample: calling the generator with num_notes = 0 (a count
that is ≤ 0) does not fail with an InvalidArgument error; it succeeds and
returns an empty notes table. -/
theorem generator_no_invalid_argument_check :
    run_ok_with_empty_notes
      (generate_synthetic_data 1 1 0 (np_random_seed 0)) = true := by
  decide

/-- C4 amended: the generator performs no count validation. A run with
num_notes = 0 succeeds and returns an empty notes table, and a run with
num_clients = 0 but a positive number of cases fails only incidentally,
with the NumPy randint range error (low >= high) raised while sampling a
client id, not with an InvalidArgument validation error. -/
theorem generator_count_validation_behavior :
    run_ok_with_empty_notes
      (generate_synthetic_data 2 2 0 (np_random_seed 0)) = true ∧
    run_fails_low_high
      (generate_synthetic_data 0 1 0 (np_random_seed 0)) = true := by
  exact ⟨by decide, by decide⟩

/-! ## DataFrame model -/

/-- One cell of a modelled DataFrame. -/
inductive Cell where
  | int (z : Int)
  | str (s : String)
  | date (d : Int)
  | bool (b : Bool)
  | null
deriving DecidableEq, Repr

/-- Column-oriented DataFrame: an association list from column name to
the list of that column's cells. -/
abbrev DF := List (String × List Cell)

/-- The column names, in order. -/
def colNames (df : DF) : List String := df.map Prod.fst

/-- Model of `c in df.columns`. -/
def hasCol (df : DF) (c : String) : Bool := (colNames df).contains c

/-- Model of `df[c]` for an existing column (empty for a missing one). -/
def getCol (df : DF) (c : String) : List Cell :=
  match df.find? (fun p => p.1 == c) with
  | some p => p.2
  | none => []

/-- Number of rows (length of the first column). -/
def nRows (df : DF) : Nat :=
  match df with
  | [] => 0
  | p :: _ => p.2.length

/-- Model of the pandas column assignment `df[c] = xs`: overwrite the
column in place when it exists, append it at the end otherwise. -/
def setCol (df : DF) (c : String) (xs : List Cell) : DF :=
  if hasCol df c then df.map (fun p => if p.1 == c then (c, xs) else p)
  else df ++ [(c, xs)]

/-! ## Target construction (src/data/data_processor.py lines 54-65) -/

/-- Model of the target construction of `preprocess_data`, which runs
after one-hot encoding: if a raw `status` column is still present, derive
`is_resolved` as 1 iff the status equals "Resolved"; otherwise, if a
`status_Resolved` indicator column exists, use it as the target;
otherwise add a constant all-ones `is_resolved` column (the silent
"every row resolved" placeholder) and use that. Returns the updated
table and the name of the target column. -/
def create_target (df : DF) : DF × String :=
  if hasCol df "status" then
    (setCol df "is_resolved" ((getCol df "status").map
      (fun c => if c == Cell.str "Resolved" then Cell.int 1 else Cell.int 0)),
     "is_resolved")
  else if hasCol df "status_Resolved" then (df, "status_Resolved")
  else
    (setCol df "is_resolved" (List.replicate (nRows df) (Cell.int 1)),
     "is_resolved")

/-- A merged table with no status column and no status indicator column:
two identifier rows with an age column. -/
def no_status_table : DF :=
  [("case_id", [Cell.int 0, Cell.int 1]),
   ("age", [Cell.int 30, Cell.int 41])]

/-! ## Feature schema pipeline (src/data/data_processor.py lines 18-70)

The feature-matrix claim is about which columns survive into the feature
matrix and their dtypes, so this part of `preprocess_data` is embedded at
the schema level: a schema is the list of column names with their pandas
dtypes, and every pipeline step is the exact column/dtype transformation
the corresponding pandas call performs. -/

/-- The pandas dtype of a column. -/
inductive Dtype where
  | tInt
  | tFloat
  | tBool
  | tStr
  | tDate
deriving DecidableEq, Repr

/-- Schema: column names with dtypes, in order. -/
abbrev Schema := List (String × Dtype)

/-- Dtypes a classifier can consume directly. -/
def numericDtype : Dtype → Bool
  | .tInt => true
  | .tFloat => true
  | .tBool => true
  | _ => false

/-- Column effect of `pd.merge(cases_df, clients_df, on='client_id')`:
the case columns followed by the client columns minus the join key. -/
def merge_schema (cases clients : Schema) : Schema :=
  cases ++ clients.filter (fun p => !(p.1 == "client_id"))

/-- Column effect of the `pd.to_datetime` loop over `open_date`,
`close_date`, `join_date` (lines 22-25). -/
def convert_date_columns_schema (s : Schema) : Schema :=
  s.map (fun p =>
    if p.1 == "open_date" || p.1 == "close_date" || p.1 == "join_date" then
      (p.1, Dtype.tDate)
    else p)

/-- Column assignment at the schema level (`df[c] = ...`). -/
def setColS (s : Schema) (c : String) (d : Dtype) : Schema :=
  if (s.map Prod.fst).contains c then
    s.map (fun p => if p.1 == c then (c, d) else p)
  else s ++ [(c, d)]

/-- Column effect of the feature engineering block (lines 28-34):
`client_tenure_days`, `month_opened`, `year_opened`,
`day_of_week_opened`, all integer-valued. The median imputation of
`resolution_days` (lines 37-39) does not change the schema. -/
def add_derived_schema (s : Schema) : Schema :=
  setColS (setColS (setColS (setColS s
    "client_tenure_days" Dtype.tInt)
    "month_opened" Dtype.tInt)
    "year_opened" Dtype.tInt)
    "day_of_week_opened" Dtype.tInt

/-- The categorical columns handed to `pd.get_dummies` (lines 42-43). -/
def categorical_columns : List String :=
  ["case_type", "status", "complexity", "assignee", "income_level",
   "location"]

/-- Column effect of `pd.get_dummies(df, columns=..., drop_first=True)`
(lines 46-48): the encoded columns are removed, and for each, one boolean
indicator column per observed level except the first in sorted order is
appended at the end. `levels` gives the observed levels of each
categorical column. -/
def get_dummies_schema (s : Schema) (levels : String → List String) :
    Schema :=
  let encoded := categorical_columns.filter
    (fun c => (s.map Prod.fst).contains c)
  s.filter (fun p => !(encoded.contains p.1)) ++
    encoded.flatMap (fun c =>
      ((sortBy strLe (levels c)).drop 1).map
        (fun l => (c ++ "_" ++ l, Dtype.tBool)))

/-- Column effect of `merged_df['escalated'].astype(int)`
(lines 51-52). -/
def escalated_to_int_schema (s : Schema) : Schema :=
  s.map (fun p => if p.1 == "escalated" then (p.1, Dtype.tInt) else p)

/-- Column effect of the target construction (lines 56-65). -/
def create_target_schema (s : Schema) : Schema :=
  if (s.map Prod.fst).contains "status" then setColS s "is_resolved" Dtype.tInt
  else if (s.map Prod.fst).contains "status_Resolved" then s
  else setColS s "is_resolved" Dtype.tInt

/-- The feature selector of `preprocess_data` (lines 68-70): drop the
identifier, raw date, raw status and target columns, and every
`status_`-prefixed indicator. -/
def feature_columns (s : Schema) : Schema :=
  s.filter (fun p =>
    !(["case_id", "client_id", "open_date", "close_date", "join_date",
       "status", "is_resolved"].contains p.1) &&
    !(strStartsWith p.1 "status_"))

/-- The schema of the feature matrix produced by `preprocess_data`: the
whole pipeline from the merge to the feature selection, at the column
level. -/
def preprocess_features_schema (clients cases : Schema)
    (levels : String → List String) : Schema :=
  feature_columns (create_target_schema (escalated_to_int_schema
    (get_dummies_schema (add_derived_schema (convert_date_columns_schema
      (merge_schema cases clients))) levels)))

/-- The raw clients schema produced by the synthetic generator. -/
def generator_clients_schema : Schema :=
  [("client_id", Dtype.tInt), ("name", Dtype.tStr), ("age", Dtype.tInt),
   ("income_level", Dtype.tStr), ("location", Dtype.tStr),
   ("join_date", Dtype.tDate)]

/-- The raw cases schema produced by the synthetic generator. -/
def generator_cases_schema : Schema :=
  [("case_id", Dtype.tInt), ("client_id", Dtype.tInt),
   ("case_type", Dtype.tStr), ("open_date", Dtype.tDate),
   ("close_date", Dtype.tDate), ("resolution_days", Dtype.tFloat),
   ("status", Dtype.tStr), ("complexity", Dtype.tStr),
   ("assignee", Dtype.tStr), ("escalated", Dtype.tBool)]

/-- Observed category levels of one concrete generated dataset (the
fixed vocabularies of the generator; a representative pair of values for
the free-text location column and the attorney pool). -/
def generator_levels : String → List String :=
  fun c =>
    if c == "case_type" then
      ["Family Law", "Criminal Defense", "Civil Litigation", "Corporate",
       "Intellectual Property", "Estate Planning"]
    else if c == "status" then ["Resolved", "Pending", "Appealed", "Abandoned"]
    else if c == "complexity" then ["Low", "Medium", "High"]
    else if c == "assignee" then ["Attorney_1", "Attorney_2"]
    else if c == "income_level" then ["Low", "Medium", "High"]
    else if c == "location" then ["City_A", "City_B"]
    else []

/-! ## Theorems for the preprocessing claims -/

/-- C2: evaluation of the target construction at the failing input. On a
merged table with no status column and no status indicator column, the
code does not fail with a MissingTargetSource error; it silently appends
a constant `is_resolved` = 1 column — every row marked resolved — and
uses it as the target. -/
theorem create_target_silent_default :
    create_target no_status_table =
    (no_status_table ++ [("is_resolved", [Cell.int 1, Cell.int 1])],
     "is_resolved") := by decide

/-- C3 counterexample: at the generator's own input schemas, the feature
matrix produced by `preprocess_data` contains the free-text client `name`
column, and its dtype is not numeric — so the claim that every feature
column is numeric fails. -/
theorem preprocess_features_contain_nonnumeric_name :
    (preprocess_features_schema generator_clients_schema
      generator_cases_schema generator_levels).contains
      ("name", Dtype.tStr) = true ∧
    numericDtype Dtype.tStr = false :=
  ⟨by decide, rfl⟩

/-- C3 amended: for every pair of input schemas, the feature matrix
excludes the identifiers (case_id, client_id), the raw date columns
(open_date, close_date, join_date), the raw status column, the target,
and every status_-prefixed indicator; the numeric-only guarantee however
does not hold in general — on the generator's schemas every feature
column is numeric except the free-text name column, which passes through
unencoded. -/
theorem preprocess_feature_exclusions
    (clients cases : Schema) (levels : String → List String) :
    (∀ p ∈ preprocess_features_schema clients cases levels,
      (["case_id", "client_id", "open_date", "close_date", "join_date",
        "status", "is_resolved"].contains p.1) = false ∧
      strStartsWith p.1 "status_" = false) ∧
    (∀ p ∈ preprocess_features_schema generator_clients_schema
        generator_cases_schema generator_levels,
      numericDtype p.2 = true ∨ p.1 = "name") := by
  constructor
  · intro p hp
    simp only [preprocess_features_schema, feature_columns, List.mem_filter,
      Bool.and_eq_true, Bool.not_eq_true'] at hp
    exact ⟨hp.2.1, hp.2.2⟩
  · decide

/-- Witness for C3 amended: the exclusion facts evaluated on a concrete
member of the feature schema of the generator inputs. -/
theorem preprocess_feature_exclusions_witness :
    (["case_id", "client_id", "open_date", "close_date", "join_date",
      "status", "is_resolved"].contains "resolution_days") = false ∧
    strStartsWith "resolution_days" "status_" = false :=
  (preprocess_feature_exclusions generator_clients_schema
    generator_cases_schema generator_levels).1
    ("resolution_days", Dtype.tFloat) (by decide)

/-! ## Insights aggregator (src/api/case_insights.py and
src/agent/case_insights.py) -/

/-- Render a cell as a grouping key. -/
def cellKey : Cell → String
  | .str s => s
  | .int z => toString z
  | .date d => toString d
  | .bool b => toString b
  | .null => ""

/-- Numeric reading of a cell (0 for non-numeric cells). -/
def cellQ : Cell → ℚ
  | .int z => (z : ℚ)
  | .date d => (d : ℚ)
  | .bool b => if b then 1 else 0
  | _ => 0

/-- Model of `Series.value_counts()`: occurrence counts of the distinct
values, sorted by decreasing count. -/
def value_counts (xs : List Cell) : List (Cell × Nat) :=
  sortBy (fun a b => b.2 ≤ a.2) (xs.dedup.map (fun v => (v, xs.count v)))

/-- Sum of the numeric cells of a column (`Series.sum()`). -/
def sumCol (xs : List Cell) : ℚ :=
  xs.foldl (fun a c => a + cellQ c) 0

/-- Result of `CaseInsights.common_case_types`: a value-count series, an
indicator-sum series, or the not-found message string. -/
inductive CaseTypeCounts where
  | counts (xs : List (Cell × Nat))
  | sums (xs : List (String × ℚ))
  | message (s : String)
deriving DecidableEq, Repr

/-- Model of `CaseInsights.common_case_types` (api/case_insights.py
lines 33-44): value counts of the raw `case_type` column when present;
otherwise sums over the `case_type_`-prefixed indicator columns; and when
neither exists, the not-found message string is returned — no exception
is raised. -/
def common_case_types (df : DF) (top_n : Nat) : CaseTypeCounts :=
  if hasCol df "case_type" then
    .counts ((value_counts (getCol df "case_type")).take top_n)
  else
    let ctcols := (colNames df).filter (fun c => strStartsWith c "case_type_")
    if ctcols.isEmpty then
      .message "Case type information not found in the dataset."
    else
      .sums ((sortBy (fun a b => b.2 ≤ a.2)
        (ctcols.map (fun c => (c, sumCol (getCol df c))))).take top_n)

/-- Per-assignee metrics row of
`CaseInsightsAgent.analyze_assignee_performance`. -/
structure AssigneeMetrics where
  assignee : String
  total_cases : Nat
  resolution_rate : ℚ
  avg_resolution_days : ℚ
  median_resolution_days : ℚ
  avg_complexity : ℚ
deriving DecidableEq, Repr

/-- Mean of a list of rationals (0 on the empty list). -/
def qmean (xs : List ℚ) : ℚ := xs.foldl (fun a b => a + b) 0 / xs.length

/-- Median of a list of rationals with even-length interpolation. -/
def qmedian (xs : List ℚ) : ℚ :=
  let s := sortBy (fun a b => a ≤ b) xs
  let n := s.length
  if n = 0 then 0
  else if n % 2 = 1 then s.getD (n / 2) 0
  else (s.getD (n / 2 - 1) 0 + s.getD (n / 2) 0) / 2

/-- The hard-required columns of
`CaseInsightsAgent.analyze_assignee_performance`. -/
def assignee_required_columns : List String :=
  ["assignee", "case_id", "is_resolved", "resolution_days",
   "complexity_score"]

/-- Model of `CaseInsightsAgent.analyze_assignee_performance`
(agent/case_insights.py lines 108-154): a ValueError on an empty table, a
KeyError naming the missing columns when a hard-required column is
absent, and otherwise the per-assignee aggregation (count, resolution
rate, mean and median resolution days, mean complexity), grouped by the
sorted assignee keys. -/
def analyze_assignee_performance (df : DF) :
    Except String (List AssigneeMetrics) :=
  if nRows df = 0 then .error "Cannot analyze empty DataFrame"
  else
    let missing := assignee_required_columns.filter
      (fun c => !(hasCol df c))
    if !missing.isEmpty then
      .error ("Missing required columns: " ++ String.intercalate ", " missing)
    else
      let ass := (getCol df "assignee").map cellKey
      let isres := getCol df "is_resolved"
      let rdays := getCol df "resolution_days"
      let cscore := getCol df "complexity_score"
      let keys := sortBy strLe ass.dedup
      .ok (keys.map (fun k =>
        let idx := (List.range ass.length).filter
          (fun i => ass.getD i "" == k)
        let rdPresent := (idx.map (fun i => rdays.getD i Cell.null)).filter
          (fun c => !(c == Cell.null))
        { assignee := k,
          total_cases := idx.length,
          resolution_rate := qmean (idx.map
            (fun i => cellQ (isres.getD i Cell.null))),
          avg_resolution_days := qmean (rdPresent.map cellQ),
          median_resolution_days := qmedian (rdPresent.map cellQ),
          avg_complexity := qmean (idx.map
            (fun i => cellQ (cscore.getD i Cell.null))) }))

/-! ## CaseInsights mutation model (src/api/case_insights.py)

`CaseInsights.__init__` stores the caller's DataFrame without copying
(`self.data = data`), so every column the class later assigns lands in
the object the caller still holds. The embedding passes the content of
that single shared object explicitly: each method returns the new shared
content alongside its result, and a change of content models an in-place
mutation observable by the caller. -/

/-- Days-from-civil-date conversion (proleptic Gregorian calendar). -/
def days_from_civil (y m d : Int) : Int :=
  let y1 := if m ≤ 2 then y - 1 else y
  let era := (if 0 ≤ y1 then y1 else y1 - 399) / 400
  let yoe := y1 - era * 400
  let mp := (m + 9) % 12
  let doy := (153 * mp + 2) / 5 + d - 1
  let doe := yoe * 365 + yoe / 4 - yoe / 100 + doy
  era * 146097 + doe - 719468

/-- Civil date (year, month, day) of a day number. -/
def civil_from_days (z0 : Int) : Int × Int × Int :=
  let z := z0 + 719468
  let era := (if 0 ≤ z then z else z - 146096) / 146097
  let doe := z - era * 146097
  let yoe := (doe - doe / 1460 + doe / 36524 - doe / 146096) / 365
  let doy := doe - (365 * yoe + yoe / 4 - yoe / 100)
  let mp := (5 * doy + 2) / 153
  let d := doy - (153 * mp + 2) / 5 + 1
  let m := mp + (if mp < 10 then 3 else -9)
  (yoe + era * 400 + (if m ≤ 2 then 1 else 0), m, d)

/-- Parse of an ISO `YYYY-MM-DD` date string. -/
def parse_iso_date (s : String) : Option Int :=
  match (s.splitOn "-").map String.toNat? with
  | [some y, some m, some d] =>
    some (days_from_civil (y : Int) (m : Int) (d : Int))
  | _ => none

/-- Model of `pd.to_datetime` on one cell: dates pass through, integers
are read as day numbers, strings are parsed (an unparseable string
raises), nulls stay NaT. -/
def to_datetime_cell : Cell → Except String Cell
  | .str s =>
    match parse_iso_date s with
    | some d => .ok (.date d)
    | none => .error ("Unknown string format: " ++ s)
  | .int z => .ok (.date z)
  | .date d => .ok (.date d)
  | .bool b => .ok (.bool b)
  | .null => .ok .null

/-- Model of `pd.to_datetime` on a whole column. -/
def pd_to_datetime : List Cell → Except String (List Cell)
  | [] => .ok []
  | c :: rest =>
    Except.bind (to_datetime_cell c) (fun c1 =>
      Except.bind (pd_to_datetime rest) (fun r1 => .ok (c1 :: r1)))

/-- The date-conversion loop of `CaseInsights._preprocess` (lines 23-27):
convert the `open_date` and `close_date` columns in place where
present. -/
def convert_date_cols : DF → Except String DF
  | [] => .ok []
  | p :: rest =>
    Except.bind
      (if p.1 == "open_date" || p.1 == "close_date" then pd_to_datetime p.2
       else .ok p.2)
      (fun xs => Except.bind (convert_date_cols rest)
        (fun r => .ok ((p.1, xs) :: r)))

/-- Model of `CaseInsights.__init__` together with `_preprocess`
(lines 11-31): the result is the new content of the caller's DataFrame —
dates coerced in place, and an `is_resolved` column derived from `status`
(`np.where(status == 'Resolved', 1, 0)`) appended when `status` exists
and `is_resolved` does not. -/
def CaseInsights_init (df : DF) : Except String DF :=
  Except.bind (convert_date_cols df) (fun d1 =>
    .ok (if hasCol d1 "status" && !(hasCol d1 "is_resolved") then
      setCol d1 "is_resolved" ((getCol d1 "status").map
        (fun c => if c == Cell.str "Resolved" then Cell.int 1 else Cell.int 0))
    else d1))

/-- Age bucketing of `pd.cut(age, bins=[0, 30, 45, 60, 100],
labels=['<30', '30-45', '45-60', '60+'])`. -/
def age_group_cell : Cell → Cell
  | .int a =>
    if 0 < a && a ≤ 30 then .str "<30"
    else if 30 < a && a ≤ 45 then .str "30-45"
    else if 45 < a && a ≤ 60 then .str "45-60"
    else if 60 < a && a ≤ 100 then .str "60+"
    else .null
  | _ => .null

/-- Truth test of an escalation cell. -/
def cellTruthy (c : Cell) : Bool := c == Cell.bool true || c == Cell.int 1

/-- Model of `pd.crosstab(keys, escalated, normalize='index')` restricted
to its True column, sorted descending: for each distinct key, the
escalated fraction of its rows. -/
def crosstab_escalation (keys escalated : List Cell) : List (Cell × ℚ) :=
  sortBy (fun a b => b.2 ≤ a.2) (keys.dedup.map (fun k =>
    let idx := (List.range keys.length).filter
      (fun i => keys.getD i Cell.null == k)
    (k, ((idx.filter (fun i =>
      cellTruthy (escalated.getD i Cell.null))).length : ℚ) / idx.length)))

/-- Result of `CaseInsights.escalation_patterns`. -/
inductive EscalationOut where
  | message (s : String)
  | tables (by_case_type by_age : List (Cell × ℚ))
  | tablesNoAge (by_case_type : List (Cell × ℚ)) (note : String)
  | keyError (c : String)
deriving DecidableEq, Repr

/-- Model of `CaseInsights.escalation_patterns` (lines 184-215), paired
with the new content of the shared DataFrame: a message when no
`escalated` column exists, a KeyError from the crosstab when `case_type`
is absent, and otherwise the two crosstabs — with the `age_group` column
assigned to the shared object when `age` is present. -/
def escalation_patterns (df : DF) : EscalationOut × DF :=
  if !(hasCol df "escalated") then
    (.message "Escalation information not found in the dataset.", df)
  else if !(hasCol df "case_type") then (.keyError "case_type", df)
  else
    let byType := crosstab_escalation (getCol df "case_type")
      (getCol df "escalated")
    if hasCol df "age" then
      let df1 := setCol df "age_group" ((getCol df "age").map age_group_cell)
      (.tables byType (crosstab_escalation (getCol df1 "age_group")
        (getCol df1 "escalated")), df1)
    else (.tablesNoAge byType "Age information not available", df)

/-- Monthly period (`Series.dt.to_period('M')`) of a date cell. -/
def period_m : Cell → Cell
  | .date d =>
    let ymd := civil_from_days d
    .str (toString ymd.1 ++ "-" ++ toString ymd.2.1)
  | _ => .null

/-- Result of `CaseInsights.plot_trends`. -/
inductive TrendsOut where
  | message (s : String)
  | saved (s : String)
  | keyError (c : String)
deriving DecidableEq, Repr

/-- Model of `CaseInsights.plot_trends` (lines 217-243), paired with the
new content of the shared DataFrame: a message when `open_date` is
absent; otherwise the `month` column is assigned to the shared object
first, and then the resolution-rate plot needs `is_resolved` (a KeyError
when it is missing — the mutation has already happened by then). -/
def plot_trends (df : DF) : TrendsOut × DF :=
  if !(hasCol df "open_date") then
    (.message "Date information not found in the dataset.", df)
  else
    let df1 := setCol df "month" ((getCol df "open_date").map period_m)
    if hasCol df1 "is_resolved" then
      (.saved "Plots saved to case_trends.png", df1)
    else (.keyError "is_resolved", df1)

/-! ## Helper lemmas about columns -/

/-- Converting the date columns preserves the column names. -/
theorem convert_date_cols_names (df : DF) : ∀ d1 : DF,
    convert_date_cols df = .ok d1 → colNames d1 = colNames df := by
  induction df with
  | nil =>
    intro d1 h
    rw [show convert_date_cols [] = .ok ([] : DF) from rfl] at h
    cases h
    rfl
  | cons p rest ih =>
    intro d1 h
    rw [show convert_date_cols (p :: rest) =
      Except.bind
        (if p.1 == "open_date" || p.1 == "close_date" then pd_to_datetime p.2
         else .ok p.2)
        (fun xs => Except.bind (convert_date_cols rest)
          (fun r => .ok ((p.1, xs) :: r))) from rfl] at h
    cases hx : (if p.1 == "open_date" || p.1 == "close_date" then
        pd_to_datetime p.2 else .ok p.2) with
    | error e => rw [hx, except_bind_error] at h; cases h
    | ok xs =>
      rw [hx, except_bind_ok] at h
      cases hr : convert_date_cols rest with
      | error e => rw [hr, except_bind_error] at h; cases h
      | ok r =>
        rw [hr, except_bind_ok] at h
        cases h
        simp only [colNames, List.map_cons]
        rw [show (r.map Prod.fst) = colNames rest from ih r (by rw [hr])]
        rfl

/-- Overwriting a column by name in a map does not change the column
names. -/
theorem colNames_map_overwrite (df : DF) (c : String) (xs : List Cell) :
    colNames (df.map (fun p => if p.1 == c then (c, xs) else p)) =
    colNames df := by
  induction df with
  | nil => rfl
  | cons q rest ih =>
    simp only [colNames, List.map_cons] at ih ⊢
    by_cases hq : (q.1 == c) = true
    · rw [if_pos hq]
      rw [show q.1 = c from beq_iff_eq.mp hq]
      exact congrArg _ ih
    · rw [if_neg hq]
      exact congrArg _ ih

/-- The column names of `setCol`: unchanged for an existing column, the
new name appended otherwise. -/
theorem colNames_setCol (df : DF) (c : String) (xs : List Cell) :
    colNames (setCol df c xs) =
    if hasCol df c then colNames df else colNames df ++ [c] := by
  unfold setCol
  by_cases h : hasCol df c = true
  · rw [if_pos h, if_pos h]
    exact colNames_map_overwrite df c xs
  · rw [if_neg h, if_neg h]
    simp [colNames]

/-- After `setCol`, the assigned column exists. -/
theorem hasCol_setCol_self (df : DF) (c : String) (xs : List Cell) :
    hasCol (setCol df c xs) c = true := by
  unfold hasCol
  rw [colNames_setCol]
  by_cases h : hasCol df c = true
  · rw [if_pos h]
    exact h
  · rw [if_neg h]
    simp [List.contains_eq_any_beq]

/-- Two tables that disagree on the presence of a column differ. -/
theorem ne_of_hasCol_ne {a b : DF} {c : String}
    (ha : hasCol a c = true) (hb : hasCol b c = false) : a ≠ b := by
  intro he
  rw [he, hb] at ha
  cases ha

/-! ## Theorems for the insights claims -/

/-- A one-column table with no case-type, assignee or status
information. -/
def no_case_type_table : DF := [("foo", [Cell.int 1])]

/-- C7 counterexample: on a table with neither a `case_type` column nor
any `case_type_` indicator column, `CaseInsights.common_case_types`
returns the not-found message string as an ordinary value — it does not
raise a MissingColumn error. -/
theorem common_case_types_returns_message :
    common_case_types no_case_type_table 5 =
    .message "Case type information not found in the dataset." := by
  decide

/-- C7 amended: the api-module aggregation functions degrade instead of
raising — `common_case_types` returns a message string when case-type
information is absent — while the agent module's
`analyze_assignee_performance` does raise an error naming the missing
columns whenever any hard-required column is absent from a nonempty
table. -/
theorem insights_missing_column_behavior :
    common_case_types no_case_type_table 5 =
      .message "Case type information not found in the dataset." ∧
    (∀ df : DF, nRows df ≠ 0 →
      assignee_required_columns.filter (fun c => !(hasCol df c)) ≠ [] →
      analyze_assignee_performance df =
        .error ("Missing required columns: " ++ String.intercalate ", "
          (assignee_required_columns.filter (fun c => !(hasCol df c))))) := by
  constructor
  · decide
  · intro df h0 h1
    have hm : (assignee_required_columns.filter
        (fun c => !(hasCol df c))).isEmpty = false := by
      rw [List.isEmpty_eq_false]
      exact h1
    unfold analyze_assignee_performance
    rw [if_neg h0]
    simp only [hm, Bool.not_false, if_true]

/-- Witness for C7 amended: the assignee-performance check evaluated on
the concrete one-column table, which misses all five required columns. -/
theorem insights_missing_column_behavior_witness :
    analyze_assignee_performance no_case_type_table =
      .error ("Missing required columns: assignee, case_id, is_resolved, resolution_days, complexity_score") :=
  insights_missing_column_behavior.2 no_case_type_table (by decide) (by decide)

/-- C10: the caller's DataFrame is mutated in place. Constructing
`CaseInsights` on a table with a `status` column and no `is_resolved`
column leaves the shared object with an `is_resolved` column (its
content changed); `escalation_patterns` on a table with escalation,
case-type and age columns adds `age_group` to the shared object; and
`plot_trends` on a table with an `open_date` column adds `month` to the
shared object. -/
theorem caseinsights_mutates_shared_frame :
    (∀ df d1 : DF, CaseInsights_init df = .ok d1 →
      hasCol df "status" = true → hasCol df "is_resolved" = false →
      hasCol d1 "is_resolved" = true ∧ d1 ≠ df) ∧
    (∀ df : DF, hasCol df "escalated" = true →
      hasCol df "case_type" = true → hasCol df "age" = true →
      hasCol df "age_group" = false →
      hasCol (escalation_patterns df).2 "age_group" = true ∧
      (escalation_patterns df).2 ≠ df) ∧
    (∀ df : DF, hasCol df "open_date" = true → hasCol df "month" = false →
      hasCol (plot_trends df).2 "month" = true ∧
      (plot_trends df).2 ≠ df) := by
  refine ⟨?_, ?_, ?_⟩
  · intro df d1 h hs hnr
    unfold CaseInsights_init at h
    cases hcv : convert_date_cols df with
    | error e => rw [hcv, except_bind_error] at h; cases h
    | ok dcv =>
      rw [hcv, except_bind_ok] at h
      have hnames : colNames dcv = colNames df :=
        convert_date_cols_names df dcv (by rw [hcv])
      have hs1 : hasCol dcv "status" = true := by
        unfold hasCol
        rw [hnames]
        exact hs
      have hnr1 : hasCol dcv "is_resolved" = false := by
        unfold hasCol
        rw [hnames]
        exact hnr
      rw [hs1, hnr1] at h
      simp only [Bool.not_false, Bool.and_self, if_true] at h
      cases h
      constructor
      · exact hasCol_setCol_self dcv "is_resolved" _
      · exact ne_of_hasCol_ne (hasCol_setCol_self dcv "is_resolved" _) hnr
  · intro df he hct ha hnag
    unfold escalation_patterns
    rw [he, hct, ha]
    simp only [Bool.not_true, Bool.false_eq_true, if_false, if_true]
    constructor
    · exact hasCol_setCol_self df "age_group" _
    · exact ne_of_hasCol_ne (hasCol_setCol_self df "age_group" _) hnag
  · intro df ho hnm
    unfold plot_trends
    rw [ho]
    simp only [Bool.not_true, Bool.false_eq_true, if_false]
    by_cases hres : hasCol (setCol df "month"
        ((getCol df "open_date").map period_m)) "is_resolved" = true
    · rw [if_pos hres]
      exact ⟨hasCol_setCol_self df "month" _,
        ne_of_hasCol_ne (hasCol_setCol_self df "month" _) hnm⟩
    · rw [if_neg hres]
      exact ⟨hasCol_setCol_self df "month" _,
        ne_of_hasCol_ne (hasCol_setCol_self df "month" _) hnm⟩

/-- A table with a status column and no is_resolved column. -/
def mutation_df1 : DF := [("status", [Cell.str "Resolved", Cell.str "Pending"])]

/-- A table with escalation, case-type and age columns. -/
def mutation_df2 : DF :=
  [("escalated", [Cell.bool true]), ("case_type", [Cell.str "Corporate"]),
   ("age", [Cell.int 25])]

/-- A table with an open-date column. -/
def mutation_df3 : DF := [("open_date", [Cell.date 19703])]

/-- Witness for C10: the three mutations observed on concrete tables. -/
theorem caseinsights_mutates_shared_frame_witness :
    (hasCol (mutation_df1 ++
        [("is_resolved", [Cell.int 1, Cell.int 0])]) "is_resolved" = true ∧
      mutation_df1 ++ [("is_resolved", [Cell.int 1, Cell.int 0])] ≠
        mutation_df1) ∧
    (hasCol (escalation_patterns mutation_df2).2 "age_group" = true ∧
      (escalation_patterns mutation_df2).2 ≠ mutation_df2) ∧
    (hasCol (plot_trends mutation_df3).2 "month" = true ∧
      (plot_trends mutation_df3).2 ≠ mutation_df3) :=
  ⟨caseinsights_mutates_shared_frame.1 mutation_df1
      (mutation_df1 ++ [("is_resolved", [Cell.int 1, Cell.int 0])])
      (by rfl) (by decide) (by decide),
   caseinsights_mutates_shared_frame.2.1 mutation_df2
      (by decide) (by decide) (by decide) (by decide),
   caseinsights_mutates_shared_frame.2.2 mutation_df3
      (by decide) (by decide)⟩

end CaseAnalytics
